import Mathlib

/-!
Shallow embedding of the classic snake game core (the variant with a queued
direction buffer, a bounded food-placement retry budget of 100 attempts and a
sentinel fallback on the reset path).  Randomness is modelled by passing the
stream of random draws explicitly: a function from draw index to grid cell.
The snake is a nonempty list of cells, head first; the embedding keeps the
names of the source functions and constants.
-/

namespace Snake

/-- Position models the source interface: an integer pair (x, y). -/
structure Position where
  x : Int
  y : Int
deriving DecidableEq

instance : Inhabited Position := ⟨⟨0, 0⟩⟩

/-- Direction models the closed enumeration of the four movement keys. -/
inductive Direction where
  | UP
  | DOWN
  | LEFT
  | RIGHT
deriving DecidableEq

def GRID_SIZE : Int := 30

def MAX_FOOD_ATTEMPTS : Nat := 100

/-- INITIAL_SNAKE models the one-cell body centered on the grid. -/
def INITIAL_SNAKE : List Position := [⟨GRID_SIZE / 2, GRID_SIZE / 2⟩]

def INITIAL_DIRECTION : Direction := Direction.RIGHT

def SCORE_PER_LEVEL : Nat := 5

def MAX_LEVEL : Nat := 10

def BASE_SPEED : Int := 200

def SPEED_DECREMENT : Int := 15

/-- GameState aggregates the React state cells and the direction refs:
snake, food, the committed direction (directionRef), the queued direction
buffer (queuedDirectionRef), the game-over flag, level and tick interval. -/
structure GameState where
  snake : List Position
  food : Position
  direction : Direction
  queuedDirection : Option Direction
  gameOver : Bool
  level : Nat
  intervalDelay : Int
deriving DecidableEq

/-- checkCollision models the source predicate: true when the position is
outside the 0..GRID_SIZE-1 square or coincides with a checked segment. -/
def checkCollision (pos : Position) (snakeSegments : List Position) : Bool :=
  decide (pos.x < 0) || decide (GRID_SIZE ≤ pos.x) ||
    decide (pos.y < 0) || decide (GRID_SIZE ≤ pos.y) ||
    snakeSegments.any (fun segment => segment.x == pos.x && segment.y == pos.y)

/-- inBounds states that a cell lies inside the playable grid. -/
def inBounds (p : Position) : Prop :=
  0 ≤ p.x ∧ p.x < GRID_SIZE ∧ 0 ≤ p.y ∧ p.y < GRID_SIZE

instance (p : Position) : Decidable (inBounds p) := by
  unfold inBounds; infer_instance

/-- consumedDirection models lines 64-69 of the tick callback: the queued
direction, when present, becomes the committed direction for this tick. -/
def consumedDirection (s : GameState) : Direction :=
  match s.queuedDirection with
  | some newDirection => newDirection
  | none => s.direction

/-- nextHead models the movement switch: offset the head one cell in the
given direction. -/
def nextHead (d : Direction) (p : Position) : Position :=
  match d with
  | Direction.UP => ⟨p.x, p.y - 1⟩
  | Direction.DOWN => ⟨p.x, p.y + 1⟩
  | Direction.LEFT => ⟨p.x - 1, p.y⟩
  | Direction.RIGHT => ⟨p.x + 1, p.y⟩

/-- candidateHead is the current head offset one cell in the direction
committed for this tick (the snake list is never empty in reachable states;
headI supplies a default for totality only). -/
def candidateHead (s : GameState) : Position :=
  nextHead (consumedDirection s) s.snake.headI

/-- bodyToCheck models line 91: the full previous body when the move eats
the food, the previous body minus its last element otherwise. -/
def bodyToCheck (s : GameState) : List Position :=
  if candidateHead s = s.food then s.snake else s.snake.dropLast

/-- foodLoopCount models the placement retry loop: while the current draw is
occupied and retries remain, take the next draw and count the attempt.
Returns the final draw together with the number of attempts consumed. -/
def foodLoopCount (occupied : List Position) :
    List Position → Position → Nat → Position × Nat
  | [], cur, att => (cur, att)
  | d :: rest, cur, att =>
    if cur ∈ occupied then foodLoopCount occupied rest d (att + 1) else (cur, att)

/-- drawsList is the list of retry draws available to one placement: draw
indices 1 through MAX_FOOD_ATTEMPTS of the stream (index 0 is the initial
draw taken before the loop). -/
def drawsList (draws : Nat → Position) : List Position :=
  (List.range MAX_FOOD_ATTEMPTS).map (fun i => draws (i + 1))

/-- placeFoodCount runs the full source placement: an initial draw followed
by the bounded retry loop, returning the cell kept and the attempt count. -/
def placeFoodCount (occupied : List Position) (draws : Nat → Position) :
    Position × Nat :=
  foodLoopCount occupied (drawsList draws) (draws 0) 0

/-- placeFood is the cell the placement loop finally stores into food. -/
def placeFood (occupied : List Position) (draws : Nat → Position) : Position :=
  (placeFoodCount occupied draws).1

/-- moveSnake models the tick callback (lines 61-119): no-op when the game
is over; otherwise consume the queued direction, offset the head, test the
candidate against bodyToCheck; on collision set game over and keep the body,
else prepend the head and either relocate food (eating) or drop the tail. -/
def moveSnake (s : GameState) (draws : Nat → Position) : GameState :=
  if s.gameOver then s
  else
    let head := candidateHead s
    if checkCollision head (bodyToCheck s) then
      { s with direction := consumedDirection s, queuedDirection := none,
               gameOver := true }
    else if head = s.food then
      let newSnake := head :: s.snake
      { s with direction := consumedDirection s, queuedDirection := none,
               snake := newSnake, food := placeFood newSnake draws }
    else
      { s with direction := consumedDirection s, queuedDirection := none,
               snake := (head :: s.snake).dropLast }

/-- submitDirection models handleKeyPress (lines 163-190): a requested
direction is buffered only when the committed direction (directionRef) is
not its exact opposite; otherwise the buffer is left as it was. -/
def submitDirection (s : GameState) (requested : Direction) : GameState :=
  match requested with
  | Direction.UP =>
    if s.direction = Direction.DOWN then s
    else { s with queuedDirection := some Direction.UP }
  | Direction.DOWN =>
    if s.direction = Direction.UP then s
    else { s with queuedDirection := some Direction.DOWN }
  | Direction.LEFT =>
    if s.direction = Direction.RIGHT then s
    else { s with queuedDirection := some Direction.LEFT }
  | Direction.RIGHT =>
    if s.direction = Direction.LEFT then s
    else { s with queuedDirection := some Direction.RIGHT }

/-- opposite gives the 180-degree reversal of a direction. -/
def opposite : Direction → Direction
  | Direction.UP => Direction.DOWN
  | Direction.DOWN => Direction.UP
  | Direction.LEFT => Direction.RIGHT
  | Direction.RIGHT => Direction.LEFT

/-- calculateLevel models the source: min(MAX_LEVEL, floor(score / 5) + 1). -/
def calculateLevel (score : Nat) : Nat :=
  min MAX_LEVEL (score / SCORE_PER_LEVEL + 1)

/-- calculateSpeed models the source: max(50, 200 - (level - 1) * 15). -/
def calculateSpeed (level : Int) : Int :=
  max 50 (BASE_SPEED - (level - 1) * SPEED_DECREMENT)

/-- initialState models the component mount (lines 27-33): the centered
one-cell snake, a food cell taken from a single unchecked random draw, the
RIGHT direction, an empty buffer, level 1 and the base interval. -/
def initialState (foodDraw : Position) : GameState :=
  { snake := INITIAL_SNAKE, food := foodDraw, direction := INITIAL_DIRECTION,
    queuedDirection := none, gameOver := false, level := 1,
    intervalDelay := BASE_SPEED }

/-- resetGame models lines 121-147: re-place food over the initial snake
with the bounded retry loop; when the attempt budget is exhausted store the
out-of-bounds sentinel (-1, -1) and schedule a deferred unconditional
re-roll (the returned Bool records that the re-roll timer was scheduled). -/
def resetGame (draws : Nat → Position) : GameState × Bool :=
  let r := placeFoodCount INITIAL_SNAKE draws
  let newFood :=
    if MAX_FOOD_ATTEMPTS ≤ r.2 then ({ x := -1, y := -1 } : Position) else r.1
  ({ snake := INITIAL_SNAKE, food := newFood, direction := INITIAL_DIRECTION,
     queuedDirection := none, gameOver := false, level := 1,
     intervalDelay := BASE_SPEED },
   decide (MAX_FOOD_ATTEMPTS ≤ r.2))

/-- applyDeferredReroll models the zero-delay timeout scheduled on budget
exhaustion during reset: it stores one fresh draw with no occupancy check. -/
def applyDeferredReroll (s : GameState) (draw : Position) : GameState :=
  { s with food := draw }

/-! Helper lemmas shared by the claim theorems. -/

/-- coordinatewise equality of two positions is equality of the positions. -/
theorem coords_eq_iff (a b : Position) :
    (a.x == b.x && a.y == b.y) = true ↔ a = b := by
  constructor
  · intro h
    simp only [Bool.and_eq_true, beq_iff_eq] at h
    cases a; cases b; simp_all
  · intro h; subst h; simp

/-- membership form of the self-collision scan inside checkCollision. -/
theorem any_coords_iff (l : List Position) (p : Position) :
    (l.any fun segment => segment.x == p.x && segment.y == p.y) = true ↔ p ∈ l := by
  rw [List.any_eq_true]
  constructor
  · rintro ⟨seg, hseg, heq⟩
    rw [coords_eq_iff] at heq
    exact heq ▸ hseg
  · intro hp
    exact ⟨p, hp, (coords_eq_iff p p).mpr rfl⟩

/-- checkCollision is false exactly when the cell is in bounds and off the
checked segment list. -/
theorem checkCollision_eq_false (p : Position) (l : List Position) :
    checkCollision p l = false ↔ inBounds p ∧ p ∉ l := by
  unfold checkCollision inBounds
  simp only [Bool.or_eq_false_iff, decide_eq_false_iff_not, not_lt, not_le]
  constructor
  · rintro ⟨⟨⟨⟨hx0, hx1⟩, hy0⟩, hy1⟩, hany⟩
    refine ⟨⟨hx0, hx1, hy0, hy1⟩, ?_⟩
    intro hp
    have := (any_coords_iff l p).mpr hp
    rw [this] at hany
    exact Bool.true_eq_false.mp hany
  · rintro ⟨⟨hx0, hx1, hy0, hy1⟩, hnp⟩
    refine ⟨⟨⟨⟨hx0, hx1⟩, hy0⟩, hy1⟩, ?_⟩
    by_contra hany
    have : (l.any fun segment => segment.x == p.x && segment.y == p.y) = true := by
      cases h : (l.any fun segment => segment.x == p.x && segment.y == p.y)
      · exact absurd h hany
      · rfl
    exact hnp ((any_coords_iff l p).mp this)

/-- checkCollision is true exactly when the cell is out of bounds or on the
checked segment list. -/
theorem checkCollision_eq_true (p : Position) (l : List Position) :
    checkCollision p l = true ↔ ¬ inBounds p ∨ p ∈ l := by
  constructor
  · intro h
    by_contra hc
    push_neg at hc
    have := (checkCollision_eq_false p l).mpr ⟨hc.1, hc.2⟩
    rw [this] at h
    exact Bool.false_ne_true h
  · intro h
    cases hcc : checkCollision p l
    · rcases (checkCollision_eq_false p l).mp hcc with ⟨hin, hnm⟩
      rcases h with h | h
      · exact absurd hin h
      · exact absurd h hnm
    · rfl

/-- in a duplicate-free list the last element does not occur among the
elements before it. -/
theorem getLast?_not_mem_dropLast {α : Type} (l : List α) (v : α)
    (hnd : l.Nodup) (hl : l.getLast? = some v) : v ∉ l.dropLast := by
  induction l with
  | nil => simp at hl
  | cons a t ih =>
    cases t with
    | nil =>
      simp
    | cons b u =>
      have hlast : (b :: u).getLast? = some v := by
        rw [List.getLast?_cons_cons] at hl
        exact hl
      have hnd2 : (b :: u).Nodup := hnd.of_cons
      have hvm : v ∈ b :: u := by
        rcases List.mem_getLast?_eq_getLast (Option.mem_def.mpr hlast) with ⟨hne, hv⟩
        exact hv ▸ List.getLast_mem hne
      have hna : a ∉ b :: u := (List.nodup_cons.mp hnd).1
      intro hmem
      rw [List.dropLast_cons_of_ne_nil (by simp)] at hmem
      rcases List.mem_cons.mp hmem with h | h
      · exact hna (h ▸ hvm)
      · exact ih hnd2 hlast h

/-- when the placement loop ends on an occupied cell, it consumed every
available retry. -/
theorem foodLoopCount_mem_attempts (occupied : List Position) :
    ∀ (retries : List Position) (cur : Position) (att : Nat),
      (foodLoopCount occupied retries cur att).1 ∈ occupied →
      (foodLoopCount occupied retries cur att).2 = att + retries.length := by
  intro retries
  induction retries with
  | nil => intro cur att _; simp [foodLoopCount]
  | cons d rest ih =>
    intro cur att hmem
    by_cases hc : cur ∈ occupied
    · rw [foodLoopCount, if_pos hc] at hmem ⊢
      rw [ih d (att + 1) hmem]
      simp; omega
    · rw [foodLoopCount, if_neg hc] at hmem
      exact absurd hmem hc

/-- the placement loop either ends on a free cell, or its initial cell and
every retry draw were occupied. -/
theorem foodLoopCount_free_or_all (occupied : List Position) :
    ∀ (retries : List Position) (cur : Position) (att : Nat),
      (foodLoopCount occupied retries cur att).1 ∉ occupied ∨
      (cur ∈ occupied ∧ ∀ d ∈ retries, d ∈ occupied) := by
  intro retries
  induction retries with
  | nil =>
    intro cur att
    by_cases hc : cur ∈ occupied
    · exact Or.inr ⟨hc, by simp⟩
    · exact Or.inl (by simpa [foodLoopCount] using hc)
  | cons d rest ih =>
    intro cur att
    by_cases hc : cur ∈ occupied
    · rw [foodLoopCount, if_pos hc]
      rcases ih d (att + 1) with h | ⟨hd, hall⟩
      · exact Or.inl h
      · refine Or.inr ⟨hc, ?_⟩
        intro e he
        rcases List.mem_cons.mp he with rfl | he
        · exact hd
        · exact hall e he
    · rw [foodLoopCount, if_neg hc]
      exact Or.inl hc

/-- when the placed food is occupied, every draw of indices 0 through
MAX_FOOD_ATTEMPTS landed on an occupied cell. -/
theorem placeFood_mem_all (occupied : List Position) (draws : Nat → Position)
    (h : placeFood occupied draws ∈ occupied) :
    ∀ k ≤ MAX_FOOD_ATTEMPTS, draws k ∈ occupied := by
  intro k hk
  rcases foodLoopCount_free_or_all occupied (drawsList draws) (draws 0) 0 with hfree | ⟨h0, hall⟩
  · exact absurd h hfree
  · cases k with
    | zero => exact h0
    | succ j =>
      refine hall (draws (j + 1)) ?_
      unfold drawsList
      refine List.mem_map.mpr ⟨j, ?_, rfl⟩
      exact List.mem_range.mpr (by omega)

/-- when the placement ended within the budget, the placed food is free. -/
theorem placeFoodCount_lt_not_mem (occupied : List Position)
    (draws : Nat → Position)
    (h : (placeFoodCount occupied draws).2 < MAX_FOOD_ATTEMPTS) :
    (placeFoodCount occupied draws).1 ∉ occupied := by
  intro hmem
  have := foodLoopCount_mem_attempts occupied (drawsList draws) (draws 0) 0 hmem
  unfold placeFoodCount at h
  rw [this] at h
  have hlen : (drawsList draws).length = MAX_FOOD_ATTEMPTS := by
    unfold drawsList; simp
  omega

/-- bodyToCheck on an eating move is the full previous body. -/
theorem bodyToCheck_eat (s : GameState) (he : candidateHead s = s.food) :
    bodyToCheck s = s.snake := by
  unfold bodyToCheck; rw [if_pos he]

/-- bodyToCheck on a non-eating move excludes the last body cell. -/
theorem bodyToCheck_noeat (s : GameState) (hne : candidateHead s ≠ s.food) :
    bodyToCheck s = s.snake.dropLast := by
  unfold bodyToCheck; rw [if_neg hne]

/-- a tick on a finished game returns the state unchanged. -/
theorem moveSnake_over (s : GameState) (draws : Nat → Position)
    (h : s.gameOver = true) : moveSnake s draws = s := by
  simp [moveSnake, h]

/-- a tick whose candidate head collides commits the consumed direction,
clears the buffer and sets the game-over flag, touching nothing else. -/
theorem moveSnake_collide (s : GameState) (draws : Nat → Position)
    (h : s.gameOver = false)
    (hc : checkCollision (candidateHead s) (bodyToCheck s) = true) :
    moveSnake s draws =
      { s with direction := consumedDirection s, queuedDirection := none,
               gameOver := true } := by
  simp [moveSnake, h, hc]

/-- a collision-free eating tick prepends the head and relocates food with
the new, longer body as the occupancy set. -/
theorem moveSnake_eat (s : GameState) (draws : Nat → Position)
    (h : s.gameOver = false)
    (he : candidateHead s = s.food)
    (hc : checkCollision (candidateHead s) (bodyToCheck s) = false) :
    moveSnake s draws =
      { s with direction := consumedDirection s, queuedDirection := none,
               snake := candidateHead s :: s.snake,
               food := placeFood (candidateHead s :: s.snake) draws } := by
  simp only [moveSnake, h, Bool.false_eq_true, if_false, hc]
  rw [if_pos he]

/-- a collision-free non-eating tick prepends the head and drops the tail,
leaving the food in place. -/
theorem moveSnake_noeat (s : GameState) (draws : Nat → Position)
    (h : s.gameOver = false)
    (hne : candidateHead s ≠ s.food)
    (hc : checkCollision (candidateHead s) (bodyToCheck s) = false) :
    moveSnake s draws =
      { s with direction := consumedDirection s, queuedDirection := none,
               snake := (candidateHead s :: s.snake).dropLast } := by
  simp only [moveSnake, h, Bool.false_eq_true, if_false, hc]
  rw [if_neg hne]

/-- constDraw is the random stream that yields the same cell forever. -/
def constDraw (p : Position) : Nat → Position := fun _ => p

/-! Concrete states used by witnesses and counterexamples. -/

/-- eatState is a running one-cell snake about to move RIGHT onto the food. -/
def eatState : GameState :=
  { snake := [⟨5, 5⟩], food := ⟨6, 5⟩, direction := Direction.RIGHT,
    queuedDirection := none, gameOver := false, level := 1,
    intervalDelay := BASE_SPEED }

/-- wallState is a running one-cell snake on the right edge moving RIGHT. -/
def wallState : GameState :=
  { snake := [⟨29, 15⟩], food := ⟨0, 0⟩, direction := Direction.RIGHT,
    queuedDirection := none, gameOver := false, level := 1,
    intervalDelay := BASE_SPEED }

/-- loopState is a running four-cell square body whose head, moving UP,
enters the cell its tail vacates on the same tick. -/
def loopState : GameState :=
  { snake := [⟨5, 5⟩, ⟨4, 5⟩, ⟨4, 4⟩, ⟨5, 4⟩], food := ⟨9, 9⟩,
    direction := Direction.UP, queuedDirection := none, gameOver := false,
    level := 1, intervalDelay := BASE_SPEED }

/-- overState is a finished game used to check the tick no-op. -/
def overState : GameState :=
  { snake := [⟨7, 7⟩, ⟨6, 7⟩], food := ⟨2, 3⟩, direction := Direction.LEFT,
    queuedDirection := some Direction.UP, gameOver := true, level := 2,
    intervalDelay := 185 }

/-- persistState is a running two-cell snake about to eat while every
placement draw lands on the cell the head is entering. -/
def persistState : GameState :=
  { snake := [⟨5, 5⟩, ⟨4, 5⟩], food := ⟨6, 5⟩, direction := Direction.RIGHT,
    queuedDirection := none, gameOver := false, level := 1,
    intervalDelay := BASE_SPEED }

/-- persistTick1 is persistState after one eating tick whose every
placement draw hits the new head cell. -/
def persistTick1 : GameState := moveSnake persistState (constDraw ⟨6, 5⟩)

/-- persistTick2 is the following tick. -/
def persistTick2 : GameState := moveSnake persistTick1 (constDraw ⟨6, 5⟩)

/-! Claim theorems. -/

/-- C9: a tick on a state whose game-over flag is set is a no-op: it
returns the state with every component unchanged. -/
theorem C9_tick_noop_when_over (s : GameState) (draws : Nat → Position)
    (hover : s.gameOver = true) : moveSnake s draws = s :=
  moveSnake_over s draws hover

/-- C9 witness at a concrete finished state. -/
theorem C9_tick_noop_when_over_witness :
    moveSnake overState (constDraw ⟨0, 0⟩) = overState :=
  C9_tick_noop_when_over overState (constDraw ⟨0, 0⟩) rfl

/-- C2: on a running state whose candidate head collides (wall or self),
the tick sets the game-over flag and leaves the entity and the food
unchanged from their pre-move values. -/
theorem C2_fatal_move_never_applied (s : GameState) (draws : Nat → Position)
    (hrun : s.gameOver = false)
    (hc : checkCollision (candidateHead s) (bodyToCheck s) = true) :
    (moveSnake s draws).gameOver = true ∧
    (moveSnake s draws).snake = s.snake ∧
    (moveSnake s draws).food = s.food := by
  rw [moveSnake_collide s draws hrun hc]
  exact ⟨rfl, rfl, rfl⟩

/-- C2 witness: a one-cell snake driving into the right wall. -/
theorem C2_fatal_move_never_applied_witness :
    (moveSnake wallState (constDraw ⟨0, 0⟩)).gameOver = true ∧
    (moveSnake wallState (constDraw ⟨0, 0⟩)).snake = wallState.snake ∧
    (moveSnake wallState (constDraw ⟨0, 0⟩)).food = wallState.food :=
  C2_fatal_move_never_applied wallState (constDraw ⟨0, 0⟩) rfl (by decide)

/-- C3: submitting the exact opposite of the committed direction is
silently dropped, leaving the whole state (and so the empty buffer)
unchanged, and the committed direction after the next tick is still the
same direction. -/
theorem C3_reversal_rejected (s : GameState) (draws : Nat → Position)
    (hq : s.queuedDirection = none) :
    submitDirection s (opposite s.direction) = s ∧
    (moveSnake s draws).direction = s.direction := by
  constructor
  · cases hd : s.direction <;>
      simp [submitDirection, opposite, hd]
  · have hcd : consumedDirection s = s.direction := by
      unfold consumedDirection; rw [hq]
    by_cases hgo : s.gameOver = true
    · rw [moveSnake_over s draws hgo]
    · have hrun : s.gameOver = false := by
        cases h : s.gameOver
        · rfl
        · exact absurd h hgo
      by_cases hc : checkCollision (candidateHead s) (bodyToCheck s) = true
      · rw [moveSnake_collide s draws hrun hc]
        exact hcd
      · have hc2 : checkCollision (candidateHead s) (bodyToCheck s) = false := by
          cases h : checkCollision (candidateHead s) (bodyToCheck s)
          · rfl
          · exact absurd h hc
        by_cases he : candidateHead s = s.food
        · rw [moveSnake_eat s draws hrun he hc2]
          exact hcd
        · rw [moveSnake_noeat s draws hrun he hc2]
          exact hcd

/-- C3 witness: a running state moving RIGHT with an empty buffer receives
a LEFT request, which is dropped. -/
theorem C3_reversal_rejected_witness :
    submitDirection (initialState ⟨0, 0⟩) (opposite (initialState ⟨0, 0⟩).direction) =
      initialState ⟨0, 0⟩ ∧
    (moveSnake (initialState ⟨0, 0⟩) (constDraw ⟨0, 0⟩)).direction =
      (initialState ⟨0, 0⟩).direction :=
  C3_reversal_rejected (initialState ⟨0, 0⟩) (constDraw ⟨0, 0⟩) rfl

/-- C10: a running one-cell snake checks an empty body on a non-eating
tick, so the tick ends the game exactly when the candidate head leaves the
grid: self-collision is unreachable. -/
theorem C10_single_cell_only_wall (s : GameState) (draws : Nat → Position)
    (hrun : s.gameOver = false)
    (hlen : s.snake.length = 1)
    (hnoeat : candidateHead s ≠ s.food) :
    (moveSnake s draws).gameOver = true ↔ ¬ inBounds (candidateHead s) := by
  have hdrop : s.snake.dropLast = [] := by
    cases hs : s.snake with
    | nil => rfl
    | cons a t =>
      cases t with
      | nil => rfl
      | cons b u => rw [hs] at hlen; simp at hlen
  have hbody : bodyToCheck s = [] := by
    rw [bodyToCheck_noeat s hnoeat, hdrop]
  constructor
  · intro hgo
    intro hin
    have hc : checkCollision (candidateHead s) (bodyToCheck s) = false := by
      rw [hbody]
      exact (checkCollision_eq_false _ _).mpr ⟨hin, by simp⟩
    rw [moveSnake_noeat s draws hrun hnoeat hc] at hgo
    rw [hrun] at hgo
    exact Bool.false_ne_true hgo
  · intro hnin
    have hc : checkCollision (candidateHead s) (bodyToCheck s) = true := by
      rw [hbody]
      exact (checkCollision_eq_true _ _).mpr (Or.inl hnin)
    rw [moveSnake_collide s draws hrun hc]

/-- C10 witness: the centered one-cell snake moving RIGHT stays in bounds
and the tick does not end the game. -/
theorem C10_single_cell_only_wall_witness :
    (moveSnake (initialState ⟨0, 0⟩) (constDraw ⟨0, 0⟩)).gameOver = true ↔
      ¬ inBounds (candidateHead (initialState ⟨0, 0⟩)) :=
  C10_single_cell_only_wall (initialState ⟨0, 0⟩) (constDraw ⟨0, 0⟩) rfl
    (by decide) (by decide)

/-- C7: the difficulty curve: the level is min(MAX_LEVEL, score / 5 + 1),
non-decreasing in the score and capped at MAX_LEVEL; the interval is
max(50, 200 - (level - 1) * 15), non-increasing in the level and floored
at 50 milliseconds. -/
theorem C7_difficulty_curve :
    (∀ s : Nat, calculateLevel s = min MAX_LEVEL (s / SCORE_PER_LEVEL + 1)) ∧
    (∀ s t : Nat, s ≤ t → calculateLevel s ≤ calculateLevel t) ∧
    (∀ s : Nat, calculateLevel s ≤ MAX_LEVEL) ∧
    (∀ l : Int, calculateSpeed l = max 50 (BASE_SPEED - (l - 1) * SPEED_DECREMENT)) ∧
    (∀ l m : Int, 1 ≤ l → l ≤ m → calculateSpeed m ≤ calculateSpeed l) ∧
    (∀ l : Int, 50 ≤ calculateSpeed l) := by
  refine ⟨fun s => rfl, ?_, ?_, fun l => rfl, ?_, ?_⟩
  · intro s t hst
    unfold calculateLevel SCORE_PER_LEVEL MAX_LEVEL
    omega
  · intro s
    unfold calculateLevel
    exact min_le_left _ _
  · intro l m hl hlm
    unfold calculateSpeed BASE_SPEED SPEED_DECREMENT
    rcases le_total (200 - (l - 1) * 15) 50 with h | h
    · rcases le_total (200 - (m - 1) * 15) 50 with h2 | h2
      · omega
      · omega
    · rcases le_total (200 - (m - 1) * 15) 50 with h2 | h2
      · omega
      · omega
  · intro l
    unfold calculateSpeed
    exact le_max_left _ _

/-- C7 witness: concrete monotonicity instances of the curve. -/
theorem C7_difficulty_curve_witness :
    calculateLevel 3 ≤ calculateLevel 12 ∧ calculateSpeed 4 ≤ calculateSpeed 2 :=
  ⟨C7_difficulty_curve.2.1 3 12 (by decide),
   C7_difficulty_curve.2.2.2.2.1 2 4 (by decide) (by decide)⟩

/-- C1: on a non-eating tick of a duplicate-free in-bounds body of length
at least two, a candidate head equal to the cell the tail vacates this tick
passes the collision check (the body checked excludes the tail cell), the
game does not end, and the move is applied. -/
theorem C1_tail_vacated_cell_free (s : GameState) (draws : Nat → Position)
    (hrun : s.gameOver = false)
    (hlen : 2 ≤ s.snake.length)
    (hnoeat : candidateHead s ≠ s.food)
    (htail : s.snake.getLast? = some (candidateHead s))
    (hnd : s.snake.Nodup)
    (hbounds : ∀ p ∈ s.snake, inBounds p) :
    checkCollision (candidateHead s) s.snake.dropLast = false ∧
    (moveSnake s draws).gameOver = false ∧
    (moveSnake s draws).snake = candidateHead s :: s.snake.dropLast := by
  have hmem : candidateHead s ∈ s.snake := by
    rcases List.mem_getLast?_eq_getLast (Option.mem_def.mpr htail) with ⟨hne, hv⟩
    exact hv ▸ List.getLast_mem hne
  have hin : inBounds (candidateHead s) := hbounds _ hmem
  have hnotd : candidateHead s ∉ s.snake.dropLast :=
    getLast?_not_mem_dropLast s.snake (candidateHead s) hnd htail
  have hcfalse : checkCollision (candidateHead s) s.snake.dropLast = false :=
    (checkCollision_eq_false _ _).mpr ⟨hin, hnotd⟩
  have hc : checkCollision (candidateHead s) (bodyToCheck s) = false := by
    rw [bodyToCheck_noeat s hnoeat]; exact hcfalse
  have hsnn : s.snake ≠ [] := by
    intro h; rw [h] at hlen; simp at hlen
  refine ⟨hcfalse, ?_, ?_⟩
  · rw [moveSnake_noeat s draws hrun hnoeat hc]
    exact hrun
  · rw [moveSnake_noeat s draws hrun hnoeat hc]
    show (candidateHead s :: s.snake).dropLast = candidateHead s :: s.snake.dropLast
    exact List.dropLast_cons_of_ne_nil hsnn

/-- C1 witness: a four-cell square body turning UP into the cell its tail
leaves this same tick. -/
theorem C1_tail_vacated_cell_free_witness :
    checkCollision (candidateHead loopState) loopState.snake.dropLast = false ∧
    (moveSnake loopState (constDraw ⟨0, 0⟩)).gameOver = false ∧
    (moveSnake loopState (constDraw ⟨0, 0⟩)).snake =
      candidateHead loopState :: loopState.snake.dropLast :=
  C1_tail_vacated_cell_free loopState (constDraw ⟨0, 0⟩) rfl (by decide)
    (by decide) (by decide) (by decide) (by decide)

/-- C8: a collision-free eating tick grows the entity by exactly one cell
and stores the one relocation the placement loop computed over the new
body; a collision-free non-eating tick keeps the length and the food. -/
theorem C8_growth_exact (s : GameState) (draws : Nat → Position)
    (hrun : s.gameOver = false) :
    (candidateHead s = s.food →
      checkCollision (candidateHead s) s.snake = false →
      (moveSnake s draws).snake.length = s.snake.length + 1 ∧
      (moveSnake s draws).food = placeFood (candidateHead s :: s.snake) draws) ∧
    (candidateHead s ≠ s.food →
      checkCollision (candidateHead s) s.snake.dropLast = false →
      (moveSnake s draws).snake.length = s.snake.length ∧
      (moveSnake s draws).food = s.food) := by
  constructor
  · intro he hc
    have hc2 : checkCollision (candidateHead s) (bodyToCheck s) = false := by
      rw [bodyToCheck_eat s he]; exact hc
    rw [moveSnake_eat s draws hrun he hc2]
    exact ⟨by simp, rfl⟩
  · intro hne hc
    have hc2 : checkCollision (candidateHead s) (bodyToCheck s) = false := by
      rw [bodyToCheck_noeat s hne]; exact hc
    rw [moveSnake_noeat s draws hrun hne hc2]
    refine ⟨?_, rfl⟩
    show (candidateHead s :: s.snake).dropLast.length = s.snake.length
    simp

/-- C8 witness: the one-cell snake eating the adjacent food grows to two
cells and the food is the placement result over the new body. -/
theorem C8_growth_exact_witness :
    (moveSnake eatState (constDraw ⟨0, 0⟩)).snake.length =
      eatState.snake.length + 1 ∧
    (moveSnake eatState (constDraw ⟨0, 0⟩)).food =
      placeFood (candidateHead eatState :: eatState.snake) (constDraw ⟨0, 0⟩) :=
  (C8_growth_exact eatState (constDraw ⟨0, 0⟩) rfl).1 (by decide) (by decide)

/-- C5 counterexample: with every placement draw landing on the new head
cell, an eating tick completes successfully yet leaves the food on an
in-bounds entity cell (not the sentinel path), and the coincidence is still
there after the following tick: no deferred re-roll restores it. -/
theorem C5_counterexample :
    persistTick1.gameOver = false ∧
    persistTick1.food ∈ persistTick1.snake ∧
    inBounds persistTick1.food ∧
    persistTick2.gameOver = false ∧
    persistTick2.food ∈ persistTick2.snake := by decide

/-- C5 amended: immediately after a successful eating tick the food avoids
every entity cell provided some draw within the retry budget (indices 0
through MAX_FOOD_ATTEMPTS) is off the new body; when every draw in the
budget is occupied the food stays on an entity cell, with no deferred
re-roll on this path. -/
theorem C5_food_free_within_budget (s : GameState) (draws : Nat → Position)
    (hrun : s.gameOver = false)
    (heat : candidateHead s = s.food)
    (hc : checkCollision (candidateHead s) s.snake = false)
    (hfree : ∃ k, k ≤ MAX_FOOD_ATTEMPTS ∧
      draws k ∉ candidateHead s :: s.snake) :
    (moveSnake s draws).food ∉ (moveSnake s draws).snake := by
  have hc2 : checkCollision (candidateHead s) (bodyToCheck s) = false := by
    rw [bodyToCheck_eat s heat]; exact hc
  rw [moveSnake_eat s draws hrun heat hc2]
  show placeFood (candidateHead s :: s.snake) draws ∉ candidateHead s :: s.snake
  intro hmem
  rcases hfree with ⟨k, hk, hnot⟩
  exact hnot (placeFood_mem_all _ draws hmem k hk)

/-- C5 amended witness: the one-cell snake eats while the draw stream
yields a free cell immediately, so the new food is off the body. -/
theorem C5_food_free_within_budget_witness :
    (moveSnake eatState (constDraw ⟨0, 0⟩)).food ∉
      (moveSnake eatState (constDraw ⟨0, 0⟩)).snake :=
  C5_food_free_within_budget eatState (constDraw ⟨0, 0⟩) rfl (by decide)
    (by decide) ⟨0, by decide, by decide⟩

/-- C4 counterexample: on the tick path, when every draw of the placement
budget lands on an occupied cell, the food is stored on an entity cell and
no out-of-bounds sentinel is produced: the exhaustion fallback exists only
on the reset path. -/
theorem C4_counterexample :
    (moveSnake eatState (constDraw ⟨5, 5⟩)).food ∈
      (moveSnake eatState (constDraw ⟨5, 5⟩)).snake ∧
    (moveSnake eatState (constDraw ⟨5, 5⟩)).food ≠ (⟨-1, -1⟩ : Position) ∧
    (moveSnake eatState (constDraw ⟨5, 5⟩)).gameOver = false := by decide

/-- C4 amended: only the reset-path placement has the exhaustion fallback:
when the reset retry loop consumes its whole budget, the stored food is the
out-of-bounds sentinel (-1, -1) and the deferred unconditional re-roll is
scheduled; the tick-path placement stores its last draw even when that draw
lies on the entity. -/
theorem C4_reset_sentinel (draws : Nat → Position)
    (hex : MAX_FOOD_ATTEMPTS ≤ (placeFoodCount INITIAL_SNAKE draws).2) :
    (resetGame draws).1.food = ⟨-1, -1⟩ ∧
    (resetGame draws).2 = true ∧
    ¬ inBounds ((resetGame draws).1.food) := by
  have h1 : (resetGame draws).1.food = (⟨-1, -1⟩ : Position) := by
    simp [resetGame, hex]
  refine ⟨h1, ?_, ?_⟩
  · simp [resetGame, hex]
  · rw [h1]
    decide

/-- C4 amended witness: a draw stream stuck on the snake cell exhausts the
reset budget and yields the sentinel. -/
theorem C4_reset_sentinel_witness :
    (resetGame (constDraw ⟨15, 15⟩)).1.food = ⟨-1, -1⟩ ∧
    (resetGame (constDraw ⟨15, 15⟩)).2 = true ∧
    ¬ inBounds ((resetGame (constDraw ⟨15, 15⟩)).1.food) :=
  C4_reset_sentinel (constDraw ⟨15, 15⟩) (by decide)

/-- C6 counterexample: the state at component mount keeps a single
unchecked random draw as the food, so the draw that lands on the centered
snake cell leaves the food coinciding with the entity cell while being a
perfectly in-grid cell, not the documented sentinel fallback. -/
theorem C6_counterexample :
    (initialState ⟨15, 15⟩).food ∈ (initialState ⟨15, 15⟩).snake ∧
    (initialState ⟨15, 15⟩).food ≠ (⟨-1, -1⟩ : Position) ∧
    inBounds (initialState ⟨15, 15⟩).food := by decide

/-- C6 amended: at session start the state holds the one-cell entity
centered on the grid, committed direction RIGHT, level 1 and the base tick
interval, but the food is a single random draw stored with no occupancy
check (it may coincide with the entity cell); the placement that does
guarantee non-coincidence, up to the sentinel fallback, runs on reset. -/
theorem C6_initial_state_shape (d : Position) (draws : Nat → Position) :
    (initialState d).snake = [⟨GRID_SIZE / 2, GRID_SIZE / 2⟩] ∧
    (initialState d).direction = Direction.RIGHT ∧
    (initialState d).level = 1 ∧
    (initialState d).intervalDelay = BASE_SPEED ∧
    (initialState d).gameOver = false ∧
    (initialState d).food = d ∧
    ((resetGame draws).1.food ∉ (resetGame draws).1.snake ∨
      (resetGame draws).1.food = ⟨-1, -1⟩) := by
  refine ⟨rfl, rfl, rfl, rfl, rfl, rfl, ?_⟩
  by_cases hex : MAX_FOOD_ATTEMPTS ≤ (placeFoodCount INITIAL_SNAKE draws).2
  · right
    simp [resetGame, hex]
  · left
    have hlt : (placeFoodCount INITIAL_SNAKE draws).2 < MAX_FOOD_ATTEMPTS :=
      Nat.lt_of_not_le hex
    have hfree := placeFoodCount_lt_not_mem INITIAL_SNAKE draws hlt
    simpa [resetGame, hex] using hfree

end Snake
